import Mathlib

/-!
# The building-layer script `app.js`

A shallow embedding of the Earth Engine script: the timestamp pipeline
(`filterBounds → aggregate_array → distinct → sort → getInfo → slice(-5)`),
the layer rendering callback `displayBuildingLayers`, the legend loop and the
two `Export.image.toDrive` calls.

Conventions of the embedding:

* a JavaScript value that may be `undefined` is an `Option` (`none` is `undefined`);
* server-side image expressions are kept symbolic (`Image`);
* the implicit global state of the Code Editor (map layers, map widgets, export
  tasks) is an explicit `Env` threaded through the statements;
* the two calls whose result depends on the remote service (the spatial
  intersection test of `filterBounds` and `ee.Date(v).get('year').getInfo()`)
  are fields of a `Service`; a call that throws is an `Except.error`;
* a throw stops the script and keeps the session as it was at that point
  (`Failure`): what was added to the map or submitted before stays.
-/

namespace GeeScript

/-! ## Data model -/

/-- Acquisition time `system:time_start`, milliseconds since the epoch. -/
abbrev Timestamp := Int

/-- Value of `ee.Geometry.Polygon(coords, null, geodesic)`: the coordinate rings,
each vertex a (longitude, latitude) pair in units of 1e-15 degree, and the
`geodesic` flag. -/
structure Geometry where
  rings : List (List (Int × Int))
  geodesic : Bool
  deriving DecidableEq, Repr

/-- One image of the collection as far as the script observes it: its
`system:time_start` property and its footprint. -/
structure Record where
  timeStart : Timestamp
  footprint : Geometry
  deriving DecidableEq, Repr

/-- Remote behaviour the script relies on. `intersects` is the test behind
`filterBounds`; `dateYear v` is `ee.Date(v).get('year').getInfo()`, which may
throw, and which does throw on `undefined`: the `ee.Date` constructor rejects an
argument that is neither a number, a string, a date nor a computed object. -/
structure Service where
  intersects : Geometry → Geometry → Bool
  dateYear : Option Timestamp → Except String Int
  dateYear_undefined :
    dateYear none = Except.error "Invalid argument specified for ee.Date(): undefined"

/-- Server-side image expressions built by the script. `mosaicEq v` is
`buildingCollection.filter(ee.Filter.eq('system:time_start', v)).mosaic()`. -/
inductive Image where
  | mosaicEq (value : Option Timestamp)
  | select (img : Image) (band : String)
  | updateMask (img : Image) (mask : Image)
  | clip (img : Image) (region : Geometry)
  deriving DecidableEq, Repr

/-- Visualization parameters object passed to `Map.addLayer`; an absent key is `none`. -/
structure VisParams where
  min : Option Int
  max : Option Int
  palette : Option (List String)
  deriving DecidableEq, Repr

/-- One `Map.addLayer(image, visParams, name)` call. -/
structure Layer where
  image : Image
  visParams : VisParams
  name : String
  deriving DecidableEq, Repr

/-- Argument object of `Export.image.toDrive`. -/
structure ExportTask where
  image : Image
  description : String
  folder : String
  fileNamePrefix : String
  region : Geometry
  scale : Nat
  crs : String
  maxPixels : Nat
  deriving DecidableEq, Repr

/-- A `ui.Label`: its `value` and its `style` entries. -/
structure Label where
  value : Option String
  style : List (String × Option String)
  deriving DecidableEq, Repr

/-- Child of the legend panel: a label, or a flow panel holding labels. -/
inductive Widget where
  | label (l : Label)
  | panel (widgets : List Label) (layout : String)
  deriving DecidableEq, Repr

/-- A top-level `ui.Panel` with its `style` entries and the widgets added to it. -/
structure Panel where
  style : List (String × Option String)
  widgets : List Widget
  deriving DecidableEq, Repr

/-- Observable state of the Code Editor session: layers of `Map`, the last
`Map.centerObject` request, widgets added with `Map.add`, submitted exports. -/
structure Env where
  layers : List Layer
  center : Option (Geometry × Nat)
  widgets : List Panel
  tasks : List ExportTask
  deriving DecidableEq, Repr

/-- An error that stopped the script: the message thrown and the session reached
when it was thrown. -/
structure Failure where
  message : String
  env : Env
  deriving DecidableEq, Repr

/-- A library call evaluated by a statement running in session `env`: its value,
or the script stopped in `env` by what the call throws. -/
def callIn {α : Type} (env : Env) (r : Except String α) : Except Failure α :=
  match r with
  | Except.ok a => Except.ok a
  | Except.error m => Except.error { message := m, env := env }

/-! ## Globals of the script -/

/-- Line 1-6: `poi`. -/
def poi : Geometry :=
  { rings := [[(77674567194863660, 13028734308323427),
               (77674567194863660, 13011842258079875),
               (77695853205605840, 13011842258079875),
               (77695853205605840, 13028734308323427)]],
    geodesic := false }

/-- Line 8: `heightPalette`. -/
def heightPalette : List String :=
  ["#000000", "#ffcccc", "#ff9999", "#ff6666", "#ff3333", "#cc0000"]

/-- Line 9: `heightRanges`. -/
def heightRanges : List Int := [0, 1, 2, 4, 7, 9, 10]

/-- Line 58: `legendLabels`. -/
def legendLabels : List String := ["1-2", "2-4", "5-7", "7-9", "10+"]

/-! ## JavaScript array primitives -/

/-- Element read `xs[i]`: `undefined` outside `0 ≤ i < xs.length`. -/
def index {α : Type} (xs : List α) (i : Int) : Option α :=
  if i < 0 then none else xs[i.toNat]?

/-- One-argument `Array.prototype.slice(start)`: a negative `start` counts from the
end, the start position is clamped to `[0, length]`, the end is the array's end. -/
def slice {α : Type} (xs : List α) (start : Int) : List α :=
  let len : Int := xs.length
  let k : Int := if start < 0 then max (len + start) 0 else min start len
  xs.drop k.toNat

/-! ## Timestamp pipeline (lines 31-37) -/

/-- Method `filterBounds(g)`: the images whose footprint intersects `g`. -/
def filterBounds (S : Service) (g : Geometry) (coll : List Record) : List Record :=
  coll.filter (fun r => S.intersects r.footprint g)

/-- Method `aggregate_array('system:time_start')`: the property of every image, in order. -/
def aggregate_array (coll : List Record) : List Timestamp :=
  coll.map (fun r => r.timeStart)

/-- Method `ee.List.distinct()`: first occurrences, in order. -/
def distinct : List Timestamp → List Timestamp
  | [] => []
  | x :: xs => x :: (distinct xs).filter (fun y => decide (y ≠ x))

/-- Method `ee.List.sort()`: ascending numeric order. -/
def sort (xs : List Timestamp) : List Timestamp :=
  xs.insertionSort (fun a b => a ≤ b)

/-- The chain `.distinct().sort().getInfo().slice(-5)` applied to the aggregated list. -/
def timestampsOf (raw : List Timestamp) : List Timestamp :=
  slice (sort (distinct raw)) (-5)

/-- Lines 31-37: `timestamps`. -/
def timestamps (S : Service) (catalog : List Record) : List Timestamp :=
  timestampsOf (aggregate_array (filterBounds S poi catalog))

/-! ## Map and export primitives -/

/-- Statement `Map.addLayer(image, visParams, name)`: the layer goes on top of the existing ones. -/
def Map_addLayer (image : Image) (visParams : VisParams) (name : String) (env : Env) : Env :=
  { env with layers := env.layers ++ [{ image := image, visParams := visParams, name := name }] }

/-- Statement `Map.centerObject(object, zoom)`. -/
def Map_centerObject (object : Geometry) (zoom : Nat) (env : Env) : Env :=
  { env with center := some (object, zoom) }

/-- Statement `Map.add(widget)`. -/
def Map_add (widget : Panel) (env : Env) : Env :=
  { env with widgets := env.widgets ++ [widget] }

/-- Statement `Export.image.toDrive(params)`: one more submitted task. -/
def Export_image_toDrive (task : ExportTask) (env : Env) : Env :=
  { env with tasks := env.tasks ++ [task] }

/-- Method `panel.add(widget)`. -/
def Panel.add (p : Panel) (w : Widget) : Panel :=
  { p with widgets := p.widgets ++ [w] }

/-- String concatenation `text + year` with a numeric `year`. -/
def concatYear (text : String) (year : Int) : String :=
  text ++ toString year

/-! ## Rendering (lines 10-30 and 38) -/

/-- Lines 10-30: `displayBuildingLayers(timestamp)`. -/
def displayBuildingLayers (S : Service) (timestamp : Timestamp) (env : Env) :
    Except Failure Env := do
  let buildingImage := Image.mosaicEq (some timestamp)
  let year ← callIn env (S.dateYear (some timestamp))
  let env := Map_addLayer (buildingImage.select "building_presence")
    { min := none, max := some 1, palette := none } (concatYear "Building Presence " year) env
  let buildingPresence := buildingImage.select "building_presence"
  let buildingHeight := buildingImage.select "building_height"
  let maskedHeight := buildingHeight.updateMask buildingPresence
  let env := Map_addLayer maskedHeight
    { min := some 0, max := some 10, palette := some heightPalette }
    (concatYear "Building Height " year) env
  pure env

/-- Method `Array.prototype.forEach(callback)` for a callback acting on the session:
elements are visited first to last, and a throwing call ends the iteration. -/
def forEach {α : Type} (xs : List α) (callback : α → Env → Except Failure Env) (env : Env) :
    Except Failure Env :=
  match xs with
  | [] => pure env
  | x :: rest => do
    let env ← callback x env
    forEach rest callback env

/-! ## Legend (lines 41-81) -/

/-- Lines 41-47: the empty `legend` panel. -/
def legendPanel : Panel :=
  { style := [("position", some "bottom-right"), ("padding", some "8px 15px"),
              ("backgroundColor", some "white")],
    widgets := [] }

/-- Lines 48-56: `legendTitle`. -/
def legendTitle : Label :=
  { value := some "Building Height (meters)",
    style := [("fontWeight", some "bold"), ("fontSize", some "16px"),
              ("margin", some "0 0 4px 0"), ("padding", some "0")] }

/-- Lines 60-78: the body of the legend loop at index `i`, for a palette and a label array. -/
def legendRow (palette labels : List String) (i : Nat) : Widget :=
  let colorBox : Label :=
    { value := none,
      style := [("backgroundColor", index palette i), ("padding", some "8px"),
                ("margin", some "0 0 4px 0")] }
  let description : Label :=
    { value := index labels ((i : Int) - 1),
      style := [("margin", some "0 0 4px 6px")] }
  Widget.panel [colorBox, description] "horizontal"

/-- Lines 59-79: `for (var i = ...; i < palette.length; i++)` from the current `i`,
adding one row to `legend` per iteration. -/
def legendLoop (palette labels : List String) (i : Nat) (legend : Panel) : Panel :=
  if i < palette.length then
    legendLoop palette labels (i + 1) (legend.add (legendRow palette labels i))
  else
    legend
termination_by palette.length - i

/-- Lines 41-79: the legend as passed to `Map.add`. -/
def legend : Panel :=
  legendLoop heightPalette legendLabels 1 (legendPanel.add (Widget.label legendTitle))

/-! ## Export (lines 82-113) -/

/-- Lines 82-113: the export stage, run on the `timestamps` array. -/
def exportStage (S : Service) (timestamps : List Timestamp) (env : Env) :
    Except Failure Env := do
  let latestYear ← callIn env (S.dateYear (index timestamps ((timestamps.length : Int) - 1)))
  let latestImage := Image.mosaicEq (index timestamps ((timestamps.length : Int) - 1))
  let latestPresence := latestImage.select "building_presence"
  let latestHeight := latestImage.select "building_height"
  let maskedLatestHeight := latestHeight.updateMask latestPresence
  let env := Export_image_toDrive
    { image := maskedLatestHeight.clip poi,
      description := concatYear "Building_Height_" latestYear,
      folder := "GEE_Exports",
      fileNamePrefix := concatYear "building_height_" latestYear,
      region := poi,
      scale := 4,
      crs := "EPSG:4326",
      maxPixels := 10000000000000 } env
  let latestPresenceImage := latestImage.select "building_presence"
  let env := Export_image_toDrive
    { image := latestPresenceImage.clip poi,
      description := concatYear "building_presence_" latestYear,
      folder := "GEE_Exports",
      fileNamePrefix := concatYear "building_presence_" latestYear,
      region := poi,
      scale := 4,
      crs := "EPSG:4326",
      maxPixels := 10000000000000 } env
  pure env

/-! ## The whole script -/

/-- Session before the script runs. -/
def Env.empty : Env :=
  { layers := [], center := none, widgets := [], tasks := [] }

/-- Lines 31-113 in statement order, from a session `env`. -/
def runFrom (S : Service) (catalog : List Record) (env : Env) : Except Failure Env := do
  let timestamps := timestamps S catalog
  let env ← forEach timestamps (displayBuildingLayers S) env
  let env := Map_centerObject poi 14 env
  let env := Map_add legend env
  exportStage S timestamps env

/-- One run of the script in a fresh session. -/
def run (S : Service) (catalog : List Record) : Except Failure Env :=
  runFrom S catalog Env.empty

/-! ## A reference date service

A concrete stand-in for `ee.Date(v).get('year').getInfo()`, used to evaluate the
script on concrete data: the proleptic Gregorian year, in UTC, of a millisecond
timestamp. -/

/-- Gregorian calendar year (UTC) of a millisecond epoch timestamp. -/
def utcYear (ms : Timestamp) : Int :=
  let z := ms / 86400000 + 719468
  let era := z / 146097
  let doe := z - era * 146097
  let yoe := (doe - doe / 1460 + doe / 36524 - doe / 146096) / 365
  let doy := doe - (365 * yoe + yoe / 4 - yoe / 100)
  let mp := (5 * doy + 2) / 153
  yoe + era * 400 + (if mp < 10 then 0 else 1)

/-- Bounding box `(west, south, east, north)` of a list of vertices. -/
def boundingBox : List (Int × Int) → Option (Int × Int × Int × Int)
  | [] => none
  | (x, y) :: rest =>
    match boundingBox rest with
    | none => some (x, y, x, y)
    | some (w, s, e, n) => some (min x w, min y s, max x e, max y n)

/-- Footprint test by bounding boxes: both geometries have a vertex and their
boxes overlap. -/
def boxesIntersect (a b : Geometry) : Bool :=
  match boundingBox a.rings.flatten, boundingBox b.rings.flatten with
  | some (w1, s1, e1, n1), some (w2, s2, e2, n2) =>
    decide (w1 ≤ e2 ∧ w2 ≤ e1 ∧ s1 ≤ n2 ∧ s2 ≤ n1)
  | _, _ => false

/-- The `ee.Date(v).get('year').getInfo()` of the reference service: the UTC year
of a number, a throw on `undefined`. -/
def strictDateYear (v : Option Timestamp) : Except String Int :=
  match v with
  | some t => Except.ok (utcYear t)
  | none => Except.error "Invalid argument specified for ee.Date(): undefined"

/-- The reference service: bounding-box footprint test and UTC calendar years. -/
def strictService : Service :=
  { intersects := boxesIntersect,
    dateYear := strictDateYear,
    dateYear_undefined := rfl }

/-- A footprint inside the polygon of interest. -/
def insideFootprint : Geometry :=
  { rings := [[(77680000000000000, 13015000000000000),
               (77680000000000000, 13020000000000000),
               (77690000000000000, 13020000000000000),
               (77690000000000000, 13015000000000000)]],
    geodesic := false }

/-- A footprint far from the polygon of interest. -/
def remoteFootprint : Geometry :=
  { rings := [[(2000000000000000, 48000000000000000),
               (2000000000000000, 49000000000000000),
               (3000000000000000, 49000000000000000),
               (3000000000000000, 48000000000000000)]],
    geodesic := false }

/-- A catalog with two epochs over the polygon (2022 and 2023, the later one on
two tiles) and one image elsewhere. -/
def sampleCatalog : List Record :=
  [{ timeStart := 1688108400000, footprint := insideFootprint },
   { timeStart := 1656572400000, footprint := insideFootprint },
   { timeStart := 1688108400000, footprint := poi },
   { timeStart := 1719730800000, footprint := remoteFootprint }]

/-- A catalog with no image over the polygon. -/
def remoteCatalog : List Record :=
  [{ timeStart := 1719730800000, footprint := remoteFootprint }]

/-! ## Lemmas on the timestamp pipeline -/

theorem mem_distinct (x : Timestamp) (l : List Timestamp) : x ∈ distinct l ↔ x ∈ l := by
  induction l with
  | nil => simp [distinct]
  | cons a l ih =>
    simp only [distinct, List.mem_cons, List.mem_filter, ih, decide_eq_true_eq]
    constructor
    · rintro (h | ⟨h, _⟩)
      · exact Or.inl h
      · exact Or.inr h
    · rintro (h | h)
      · exact Or.inl h
      · by_cases hx : x = a
        · exact Or.inl hx
        · exact Or.inr ⟨h, hx⟩

theorem nodup_distinct (l : List Timestamp) : (distinct l).Nodup := by
  induction l with
  | nil => simp [distinct]
  | cons a l ih =>
    simp only [distinct, List.nodup_cons, List.mem_filter, decide_eq_true_eq]
    exact ⟨fun h => h.2 rfl, ih.filter _⟩

theorem mem_sort (x : Timestamp) (l : List Timestamp) : x ∈ sort l ↔ x ∈ l :=
  (List.perm_insertionSort _ l).mem_iff

theorem nodup_sort_distinct (l : List Timestamp) : (sort (distinct l)).Nodup :=
  (List.perm_insertionSort _ (distinct l)).nodup_iff.mpr (nodup_distinct l)

theorem sorted_sort_distinct (l : List Timestamp) :
    (sort (distinct l)).Sorted (fun a b => a < b) :=
  (List.sorted_insertionSort (fun a b : Int => a ≤ b) (distinct l)).lt_of_le
    (nodup_sort_distinct l)

theorem sort_distinct_eq_finset_sort (l : List Timestamp) :
    sort (distinct l) = l.toFinset.sort (fun a b => a ≤ b) := by
  apply List.eq_of_perm_of_sorted (r := fun a b : Int => a ≤ b)
  · rw [List.perm_ext_iff_of_nodup (nodup_sort_distinct l) (Finset.sort_nodup _ _)]
    intro a
    simp [mem_sort, mem_distinct]
  · exact List.sorted_insertionSort _ _
  · exact Finset.sort_sorted _ _

theorem slice_neg_five {α : Type} (xs : List α) : slice xs (-5) = xs.drop (xs.length - 5) := by
  unfold slice
  simp only [show ((-5 : Int) < 0) from by decide, if_true]
  congr 1
  omega

theorem timestampsOf_eq_drop (raw : List Timestamp) :
    timestampsOf raw = (sort (distinct raw)).drop ((sort (distinct raw)).length - 5) :=
  slice_neg_five _

theorem length_sort_distinct (raw : List Timestamp) :
    (sort (distinct raw)).length = raw.toFinset.card := by
  rw [sort_distinct_eq_finset_sort, Finset.length_sort]

theorem timestampsOf_sorted (raw : List Timestamp) :
    (timestampsOf raw).Sorted (fun a b => a < b) := by
  rw [timestampsOf_eq_drop]
  exact (sorted_sort_distinct raw).sublist (List.drop_sublist _ _)

theorem mem_timestampsOf (raw : List Timestamp) (x : Timestamp) (h : x ∈ timestampsOf raw) :
    x ∈ raw := by
  rw [timestampsOf_eq_drop] at h
  exact (mem_distinct x raw).mp ((mem_sort x _).mp (List.mem_of_mem_drop h))

theorem lt_of_not_mem_timestampsOf (raw : List Timestamp) (y x : Timestamp) (hy : y ∈ raw)
    (hny : y ∉ timestampsOf raw) (hx : x ∈ timestampsOf raw) : y < x := by
  rw [timestampsOf_eq_drop] at hny hx
  have hs := sorted_sort_distinct raw
  have hyL : y ∈ sort (distinct raw) := (mem_sort y _).mpr ((mem_distinct y raw).mpr hy)
  rw [← List.take_append_drop ((sort (distinct raw)).length - 5) (sort (distinct raw))] at hs hyL
  rcases List.mem_append.mp hyL with h | h
  · exact (List.pairwise_append.mp hs).2.2 y h x hx
  · exact absurd h hny

theorem length_timestampsOf (raw : List Timestamp) :
    (timestampsOf raw).length = min raw.toFinset.card 5 := by
  rw [timestampsOf_eq_drop, List.length_drop, length_sort_distinct]
  omega

/-! ## Timestamp pipeline: claims -/

/-- C1: for every aggregated timestamp list (any length, any order, duplicates
allowed) the `timestamps` value computed by distinct, sort and `slice(-5)` is
strictly ascending, has no duplicate and has at most 5 entries. -/
theorem timestampsOf_strictly_ascending (raw : List Timestamp) :
    (timestampsOf raw).Sorted (fun a b => a < b) ∧
    (timestampsOf raw).Nodup ∧
    (timestampsOf raw).length ≤ 5 := by
  refine ⟨timestampsOf_sorted raw, ?_, ?_⟩
  · rw [timestampsOf_eq_drop]
    exact (nodup_sort_distinct raw).sublist (List.drop_sublist _ _)
  · rw [timestampsOf_eq_drop, List.length_drop]
    omega

/-- C2: with `n` distinct values in the aggregated list, `timestamps` is exactly the
`min n 5` largest of them: it is the tail of that length of the ascending list of
distinct values, each of its entries is a matching timestamp, each matching
timestamp left out is smaller than every entry kept, and for `n ≤ 5` it is the whole
ascending list of distinct values. -/
theorem timestampsOf_largest_distinct (raw : List Timestamp) :
    timestampsOf raw =
      (raw.toFinset.sort (fun a b => a ≤ b)).drop (raw.toFinset.card - 5) ∧
    (timestampsOf raw).length = min raw.toFinset.card 5 ∧
    (∀ x ∈ timestampsOf raw, x ∈ raw) ∧
    (∀ y ∈ raw, y ∉ timestampsOf raw → ∀ x ∈ timestampsOf raw, y < x) ∧
    (raw.toFinset.card ≤ 5 → timestampsOf raw = raw.toFinset.sort (fun a b => a ≤ b)) := by
  have hdrop : timestampsOf raw =
      (raw.toFinset.sort (fun a b => a ≤ b)).drop (raw.toFinset.card - 5) := by
    rw [timestampsOf_eq_drop, length_sort_distinct, sort_distinct_eq_finset_sort]
  refine ⟨hdrop, length_timestampsOf raw, mem_timestampsOf raw, ?_, ?_⟩
  · intro y hy hny x hx
    exact lt_of_not_mem_timestampsOf raw y x hy hny hx
  · intro hn
    rw [hdrop, Nat.sub_eq_zero_of_le hn, List.drop_zero]

/-- C4: when some record of the catalog intersects the region, the element the
export stage reads, `timestamps[timestamps.length - 1]`, is defined and is the
maximum of the matching timestamps: it is the `system:time_start` of a matching
record and no matching record has a greater one. -/
theorem latest_timestamp_is_maximum (S : Service) (catalog : List Record)
    (h : ∃ r ∈ catalog, S.intersects r.footprint poi = true) :
    ∃ m, index (timestamps S catalog) (((timestamps S catalog).length : Int) - 1) = some m ∧
      (∃ r ∈ catalog, S.intersects r.footprint poi = true ∧ r.timeStart = m) ∧
      (∀ r ∈ catalog, S.intersects r.footprint poi = true → r.timeStart ≤ m) := by
  obtain ⟨r0, hr0, hi0⟩ := h
  have hmemraw : ∀ x, x ∈ aggregate_array (filterBounds S poi catalog) ↔
      ∃ r ∈ catalog, S.intersects r.footprint poi = true ∧ r.timeStart = x := by
    intro x
    simp only [aggregate_array, filterBounds, List.mem_map, List.mem_filter]
    constructor
    · rintro ⟨r, ⟨hr, hi⟩, rfl⟩
      exact ⟨r, hr, hi, rfl⟩
    · rintro ⟨r, hr, hi, rfl⟩
      exact ⟨r, ⟨hr, hi⟩, rfl⟩
  set raw := aggregate_array (filterBounds S poi catalog) with hraw
  have hts : timestamps S catalog = timestampsOf raw := rfl
  have h0 : r0.timeStart ∈ raw := (hmemraw _).mpr ⟨r0, hr0, hi0, rfl⟩
  have hne : timestampsOf raw ≠ [] := by
    intro hnil
    have hlen := length_timestampsOf raw
    rw [hnil] at hlen
    have hpos : 0 < raw.toFinset.card :=
      Finset.card_pos.mpr ⟨_, List.mem_toFinset.mpr h0⟩
    simp at hlen
    omega
  have hlenpos : 0 < (timestampsOf raw).length := List.length_pos.mpr hne
  refine ⟨(timestampsOf raw).getLast hne, ?_, ?_, ?_⟩
  · rw [hts]
    unfold index
    have hnn : ¬ (((timestampsOf raw).length : Int) - 1 < 0) := by omega
    rw [if_neg hnn]
    have hidx : (((timestampsOf raw).length : Int) - 1).toNat = (timestampsOf raw).length - 1 := by
      omega
    rw [hidx, List.getLast_eq_getElem, List.getElem?_eq_getElem]
  · exact (hmemraw _).mp (mem_timestampsOf raw _ (List.getLast_mem hne))
  · intro r hr hi
    have hrraw : r.timeStart ∈ raw := (hmemraw _).mpr ⟨r, hr, hi, rfl⟩
    by_cases hin : r.timeStart ∈ timestampsOf raw
    · have hs := timestampsOf_sorted raw
      rw [← List.dropLast_append_getLast hne] at hs hin
      rcases List.mem_append.mp hin with hd | hl
      · exact le_of_lt ((List.pairwise_append.mp hs).2.2 _ hd _ (List.mem_singleton_self _))
      · exact le_of_eq (List.mem_singleton.mp hl)
    · exact le_of_lt (lt_of_not_mem_timestampsOf raw _ _ hrraw hin (List.getLast_mem hne))

/-- Witness for C4 on the sample catalog under the strict service. -/
theorem latest_timestamp_is_maximum_witness :
    ∃ m, index (timestamps strictService sampleCatalog)
        (((timestamps strictService sampleCatalog).length : Int) - 1) = some m ∧
      (∃ r ∈ sampleCatalog, strictService.intersects r.footprint poi = true ∧ r.timeStart = m) ∧
      (∀ r ∈ sampleCatalog, strictService.intersects r.footprint poi = true → r.timeStart ≤ m) :=
  latest_timestamp_is_maximum strictService sampleCatalog
    ⟨{ timeStart := 1688108400000, footprint := insideFootprint }, by decide, by decide⟩

/-! ## Lemmas on rendering and export -/

theorem index_last {α : Type} (xs : List α) :
    index xs ((xs.length : Int) - 1) = xs.getLast? := by
  unfold index
  cases xs with
  | nil => simp
  | cons a l =>
    have hnn : ¬ (((a :: l).length : Int) - 1 < 0) := by
      simp only [List.length_cons, Nat.cast_add, Nat.cast_one]
      omega
    have hidx : (((a :: l).length : Int) - 1).toNat = (a :: l).length - 1 := by omega
    rw [if_neg hnn, hidx, List.getLast?_eq_getElem?]

theorem exportStage_eq (S : Service) (ts : List Timestamp) (env : Env) :
    exportStage S ts env =
      (callIn env (S.dateYear ts.getLast?)).map (fun y =>
        { env with tasks := env.tasks ++
          [{ image := (((Image.mosaicEq ts.getLast?).select "building_height").updateMask
                ((Image.mosaicEq ts.getLast?).select "building_presence")).clip poi,
             description := "Building_Height_" ++ toString y,
             folder := "GEE_Exports",
             fileNamePrefix := "building_height_" ++ toString y,
             region := poi, scale := 4, crs := "EPSG:4326", maxPixels := 10000000000000 },
           { image := ((Image.mosaicEq ts.getLast?).select "building_presence").clip poi,
             description := "building_presence_" ++ toString y,
             folder := "GEE_Exports",
             fileNamePrefix := "building_presence_" ++ toString y,
             region := poi, scale := 4, crs := "EPSG:4326", maxPixels := 10000000000000 }] }) := by
  unfold exportStage
  rw [index_last]
  cases S.dateYear ts.getLast? with
  | error e => rfl
  | ok y =>
    simp [callIn, Except.map, Export_image_toDrive, concatYear, bind, Except.bind, pure,
      Except.pure]

theorem displayBuildingLayers_eq (S : Service) (t : Timestamp) (env : Env) :
    displayBuildingLayers S t env =
      (callIn env (S.dateYear (some t))).map (fun y =>
        { env with layers := env.layers ++
          [{ image := (Image.mosaicEq (some t)).select "building_presence",
             visParams := { min := none, max := some 1, palette := none },
             name := "Building Presence " ++ toString y },
           { image := ((Image.mosaicEq (some t)).select "building_height").updateMask
                ((Image.mosaicEq (some t)).select "building_presence"),
             visParams := { min := some 0, max := some 10, palette := some heightPalette },
             name := "Building Height " ++ toString y }] }) := by
  unfold displayBuildingLayers
  cases S.dateYear (some t) with
  | error e => rfl
  | ok y =>
    simp [callIn, Except.map, Map_addLayer, concatYear, bind, Except.bind, pure, Except.pure]

theorem length_flatMap_pair {α β : Type} (f g : α → β) (l : List α) :
    (l.flatMap (fun t => [f t, g t])).length = 2 * l.length := by
  induction l with
  | nil => rfl
  | cons a l ih =>
    simp only [List.flatMap_cons, List.length_append, List.length_cons, List.length_nil, ih]
    omega

theorem getElem?_flatMap_pair {α β : Type} (f g : α → β) (l : List α) (k : Nat)
    (hk : k < l.length) :
    (l.flatMap (fun t => [f t, g t]))[2 * k]? = some (f l[k]) ∧
    (l.flatMap (fun t => [f t, g t]))[2 * k + 1]? = some (g l[k]) := by
  induction l generalizing k with
  | nil => simp at hk
  | cons a l ih =>
    cases k with
    | zero => simp [List.flatMap_cons]
    | succ k =>
      have hk2 : k < l.length := by simpa using hk
      have h := ih k hk2
      have e1 : 2 * (k + 1) = 2 * k + 1 + 1 := by omega
      have e2 : 2 * (k + 1) + 1 = 2 * k + 1 + 1 + 1 := by omega
      simp only [List.flatMap_cons, List.cons_append, List.nil_append, e1, e2,
        List.getElem?_cons_succ, List.getElem_cons_succ]
      exact h

theorem forEach_displayBuildingLayers (S : Service) (Y : Timestamp → Int)
    (ts : List Timestamp) (env : Env)
    (hy : ∀ t ∈ ts, S.dateYear (some t) = Except.ok (Y t)) :
    forEach ts (displayBuildingLayers S) env = Except.ok
      { env with layers := env.layers ++ ts.flatMap (fun t =>
        [({ image := (Image.mosaicEq (some t)).select "building_presence",
            visParams := { min := none, max := some 1, palette := none },
            name := "Building Presence " ++ toString (Y t) } : Layer),
         { image := ((Image.mosaicEq (some t)).select "building_height").updateMask
              ((Image.mosaicEq (some t)).select "building_presence"),
           visParams := { min := some 0, max := some 10, palette := some heightPalette },
           name := "Building Height " ++ toString (Y t) }]) } := by
  induction ts generalizing env with
  | nil => simp [forEach, pure, Except.pure]
  | cons a l ih =>
    have ha : S.dateYear (some a) = Except.ok (Y a) := hy a (List.mem_cons_self a l)
    have hl : ∀ t ∈ l, S.dateYear (some t) = Except.ok (Y t) :=
      fun t ht => hy t (List.mem_cons_of_mem a ht)
    simp only [forEach, displayBuildingLayers_eq, ha, callIn, Except.map, bind, Except.bind]
    rw [ih _ hl]
    simp [List.flatMap_cons]

/-! ## Export stage: claims -/

/-- C3: for a non-empty `timestamps` whose last element has calendar year `Y`, the
export stage submits exactly two jobs, the masked-height job first and the
presence job second, with file names `building_height_Y` and
`building_presence_Y`, both with folder `GEE_Exports`, region `poi`, scale 4,
CRS `EPSG:4326` and maxPixels 1e13; nothing else of the session changes. -/
theorem exportStage_submits_two_jobs (S : Service) (ts : List Timestamp) (env : Env)
    (t : Timestamp) (Y : Int) (hlast : ts.getLast? = some t)
    (hy : S.dateYear (some t) = Except.ok Y) :
    exportStage S ts env = Except.ok
      { env with tasks := env.tasks ++
        [{ image := (((Image.mosaicEq (some t)).select "building_height").updateMask
              ((Image.mosaicEq (some t)).select "building_presence")).clip poi,
           description := "Building_Height_" ++ toString Y,
           folder := "GEE_Exports",
           fileNamePrefix := "building_height_" ++ toString Y,
           region := poi, scale := 4, crs := "EPSG:4326", maxPixels := 10 ^ 13 },
         { image := ((Image.mosaicEq (some t)).select "building_presence").clip poi,
           description := "building_presence_" ++ toString Y,
           folder := "GEE_Exports",
           fileNamePrefix := "building_presence_" ++ toString Y,
           region := poi, scale := 4, crs := "EPSG:4326", maxPixels := 10 ^ 13 }] } := by
  rw [exportStage_eq, hlast, hy]
  rfl

/-- Witness for C3: the epochs 2022 and 2023 under the strict service. -/
theorem exportStage_submits_two_jobs_witness :
    exportStage strictService [1656572400000, 1688108400000] Env.empty = Except.ok
      { layers := [], center := none, widgets := [],
        tasks :=
        [{ image := (((Image.mosaicEq (some 1688108400000)).select "building_height").updateMask
              ((Image.mosaicEq (some 1688108400000)).select "building_presence")).clip poi,
           description := "Building_Height_2023",
           folder := "GEE_Exports",
           fileNamePrefix := "building_height_2023",
           region := poi, scale := 4, crs := "EPSG:4326", maxPixels := 10000000000000 },
         { image := ((Image.mosaicEq (some 1688108400000)).select "building_presence").clip poi,
           description := "building_presence_2023",
           folder := "GEE_Exports",
           fileNamePrefix := "building_presence_2023",
           region := poi, scale := 4, crs := "EPSG:4326", maxPixels := 10000000000000 }] } :=
  exportStage_submits_two_jobs strictService [1656572400000, 1688108400000] Env.empty
    1688108400000 2023 rfl rfl

/-! ## Rendering: claims -/

/-- C8: for a `timestamps` sequence of length `n` whose entries have calendar years
`Y`, rendering adds exactly `2 * n` layers on top of the layers already on the
map, which stay unchanged, in sequence order: for the `k`-th timestamp the layer
at offset `2 * k` is the presence band labelled `Building Presence Y` and the
layer at offset `2 * k + 1` is the height band masked by presence, labelled
`Building Height Y`, with min 0, max 10 and palette `heightPalette`. -/
theorem rendering_adds_layer_pairs (S : Service) (Y : Timestamp → Int)
    (ts : List Timestamp) (env : Env)
    (hy : ∀ t ∈ ts, S.dateYear (some t) = Except.ok (Y t)) :
    ∃ env2, forEach ts (displayBuildingLayers S) env = Except.ok env2 ∧
      env2.layers.length = env.layers.length + 2 * ts.length ∧
      env2.layers.take env.layers.length = env.layers ∧
      (∀ k, ∀ hk : k < ts.length,
        env2.layers[env.layers.length + 2 * k]? = some
          { image := (Image.mosaicEq (some ts[k])).select "building_presence",
            visParams := { min := none, max := some 1, palette := none },
            name := "Building Presence " ++ toString (Y ts[k]) } ∧
        env2.layers[env.layers.length + (2 * k + 1)]? = some
          { image := ((Image.mosaicEq (some ts[k])).select "building_height").updateMask
              ((Image.mosaicEq (some ts[k])).select "building_presence"),
            visParams := { min := some 0, max := some 10, palette := some heightPalette },
            name := "Building Height " ++ toString (Y ts[k]) }) ∧
      env2.center = env.center ∧ env2.widgets = env.widgets ∧ env2.tasks = env.tasks := by
  refine ⟨_, forEach_displayBuildingLayers S Y ts env hy, ?_, ?_, ?_, rfl, rfl, rfl⟩
  · simp only [List.length_append, length_flatMap_pair]
  · simp
  · intro k hk
    simp only [List.getElem?_append_right (Nat.le_add_right _ _), Nat.add_sub_cancel_left]
    exact getElem?_flatMap_pair _ _ ts k hk

/-- Witness for C8: the epochs 2022 and 2023 rendered into a fresh session. -/
theorem rendering_adds_layer_pairs_witness :
    ∃ env2, forEach [1656572400000, 1688108400000] (displayBuildingLayers strictService)
        Env.empty = Except.ok env2 ∧
      env2.layers.length = 4 ∧
      env2.layers[2]? = some
        { image := (Image.mosaicEq (some 1688108400000)).select "building_presence",
          visParams := { min := none, max := some 1, palette := none },
          name := "Building Presence 2023" } ∧
      env2.layers[3]? = some
        { image := ((Image.mosaicEq (some 1688108400000)).select "building_height").updateMask
            ((Image.mosaicEq (some 1688108400000)).select "building_presence"),
          visParams := { min := some 0, max := some 10, palette := some heightPalette },
          name := "Building Height 2023" } := by
  obtain ⟨env2, hrun, hlen, _, hk, _⟩ :=
    rendering_adds_layer_pairs strictService utcYear [1656572400000, 1688108400000] Env.empty
      (fun _ _ => rfl)
  exact ⟨env2, hrun, hlen, (hk 1 (by decide)).1, (hk 1 (by decide)).2⟩

/-- C10: for a non-empty `timestamps` with last element `t`, the two exported images
are the clips to `poi` of the rasters rendered for `t`: with `P` and `M` the images
of the presence and height layers that `displayBuildingLayers(t)` adds, which are
also the last two layers after the rendering loop, the height export's image is
`clip(M, poi)` and the presence export's image is `clip(P, poi)`, `M` being the
height band of the mosaic filtered by `time_start = t` masked by that mosaic's
presence band; the year in both export file names is the year in the labels of
that last layer pair. -/
theorem export_images_are_clipped_rendered_layers (S : Service) (Y : Timestamp → Int)
    (ts : List Timestamp) (env : Env) (t : Timestamp)
    (hlast : ts.getLast? = some t)
    (hy : ∀ x ∈ ts, S.dateYear (some x) = Except.ok (Y x)) :
    ∃ (P M : Image) (presenceLayer heightLayer : Layer) (rendered : Env)
      (heightTask presenceTask : ExportTask),
      P = (Image.mosaicEq (some t)).select "building_presence" ∧
      M = ((Image.mosaicEq (some t)).select "building_height").updateMask
            ((Image.mosaicEq (some t)).select "building_presence") ∧
      presenceLayer.image = P ∧ heightLayer.image = M ∧
      presenceLayer.name = "Building Presence " ++ toString (Y t) ∧
      heightLayer.name = "Building Height " ++ toString (Y t) ∧
      (∀ env0, displayBuildingLayers S t env0 = Except.ok
        { env0 with layers := env0.layers ++ [presenceLayer, heightLayer] }) ∧
      forEach ts (displayBuildingLayers S) env = Except.ok rendered ∧
      rendered.layers.drop (rendered.layers.length - 2) = [presenceLayer, heightLayer] ∧
      (∀ env1, exportStage S ts env1 = Except.ok
        { env1 with tasks := env1.tasks ++ [heightTask, presenceTask] }) ∧
      heightTask.image = M.clip poi ∧
      presenceTask.image = P.clip poi ∧
      heightTask.fileNamePrefix = "building_height_" ++ toString (Y t) ∧
      presenceTask.fileNamePrefix = "building_presence_" ++ toString (Y t) := by
  have ht : t ∈ ts := List.mem_of_getLast?_eq_some hlast
  have hyt : S.dateYear (some t) = Except.ok (Y t) := hy t ht
  obtain ⟨init, rfl⟩ : ∃ init, ts = init ++ [t] := by
    have hne : ts ≠ [] := by
      rintro rfl
      simp at hlast
    refine ⟨ts.dropLast, ?_⟩
    have hl : ts.getLast hne = t := by
      rw [List.getLast?_eq_getLast _ hne] at hlast
      exact Option.some.inj hlast
    rw [← hl, List.dropLast_append_getLast hne]
  refine ⟨_, _,
    { image := (Image.mosaicEq (some t)).select "building_presence",
      visParams := { min := none, max := some 1, palette := none },
      name := "Building Presence " ++ toString (Y t) },
    { image := ((Image.mosaicEq (some t)).select "building_height").updateMask
        ((Image.mosaicEq (some t)).select "building_presence"),
      visParams := { min := some 0, max := some 10, palette := some heightPalette },
      name := "Building Height " ++ toString (Y t) },
    _,
    { image := (((Image.mosaicEq (some t)).select "building_height").updateMask
        ((Image.mosaicEq (some t)).select "building_presence")).clip poi,
      description := "Building_Height_" ++ toString (Y t),
      folder := "GEE_Exports",
      fileNamePrefix := "building_height_" ++ toString (Y t),
      region := poi, scale := 4, crs := "EPSG:4326", maxPixels := 10000000000000 },
    { image := ((Image.mosaicEq (some t)).select "building_presence").clip poi,
      description := "building_presence_" ++ toString (Y t),
      folder := "GEE_Exports",
      fileNamePrefix := "building_presence_" ++ toString (Y t),
      region := poi, scale := 4, crs := "EPSG:4326", maxPixels := 10000000000000 },
    rfl, rfl, rfl, rfl, rfl, rfl, ?_,
    forEach_displayBuildingLayers S Y _ env hy, ?_, ?_, rfl, rfl, rfl, rfl⟩
  · intro env0
    rw [displayBuildingLayers_eq, hyt]
    rfl
  · simp only [List.flatMap_append, List.flatMap_cons, List.flatMap_nil, List.append_nil,
      ← List.append_assoc]
    rw [List.length_append]
    simp
  · intro env1
    rw [exportStage_eq, hlast, hyt]
    rfl

/-- Witness for C10: the epochs 2022 and 2023 under the strict service. -/
theorem export_images_are_clipped_rendered_layers_witness :
    ∃ (P M : Image) (rendered exported : Env),
      forEach [1656572400000, 1688108400000] (displayBuildingLayers strictService)
        Env.empty = Except.ok rendered ∧
      rendered.layers.map (fun l => l.image) =
        [(Image.mosaicEq (some 1656572400000)).select "building_presence",
         ((Image.mosaicEq (some 1656572400000)).select "building_height").updateMask
            ((Image.mosaicEq (some 1656572400000)).select "building_presence"), P, M] ∧
      exportStage strictService [1656572400000, 1688108400000] rendered = Except.ok exported ∧
      exported.tasks.map (fun j => j.image) = [M.clip poi, P.clip poi] ∧
      exported.tasks.map (fun j => j.fileNamePrefix) =
        ["building_height_2023", "building_presence_2023"] ∧
      rendered.layers.map (fun l => l.name) =
        ["Building Presence 2022", "Building Height 2022",
         "Building Presence 2023", "Building Height 2023"] := by
  obtain ⟨P, M, pl, hl, rendered, htask, ptask, hP, hM, hpi, hhi, hpn, hhn, _, hrun, hdrop,
      hexp, hti, pti, htn, ptn⟩ :=
    export_images_are_clipped_rendered_layers strictService utcYear
      [1656572400000, 1688108400000] Env.empty 1688108400000 rfl (fun _ _ => rfl)
  have hrun2 := forEach_displayBuildingLayers strictService utcYear
    [1656572400000, 1688108400000] Env.empty (fun _ _ => rfl)
  have hr : rendered = _ := (Except.ok.inj (hrun.symm.trans hrun2))
  refine ⟨P, M, rendered, _, hrun, ?_, hexp rendered, ?_, ?_, ?_⟩
  · subst hr hP hM
    rfl
  · simp [hr, Env.empty, hti, pti]
  · simp only [hr, Env.empty, List.nil_append, List.map_cons, List.map_nil, htn, ptn]
    rfl
  · subst hr
    rfl

/-! ## Empty `timestamps`: claims -/

theorem exportStage_nil (S : Service) (env : Env) :
    exportStage S [] env = Except.error
      { message := "Invalid argument specified for ee.Date(): undefined", env := env } := by
  rw [exportStage_eq]
  simp only [List.getLast?_nil, S.dateYear_undefined]
  rfl

theorem timestamps_eq_nil_of_no_match (S : Service) (catalog : List Record)
    (h : ∀ r ∈ catalog, S.intersects r.footprint poi = false) :
    timestamps S catalog = [] := by
  have hf : filterBounds S poi catalog = [] := by
    unfold filterBounds
    rw [List.filter_eq_nil_iff]
    intro r hr
    simp [h r hr]
  unfold timestamps
  rw [hf]
  rfl

theorem run_eq_of_timestamps_nil (S : Service) (catalog : List Record)
    (h : timestamps S catalog = []) :
    run S catalog = Except.error
      { message := "Invalid argument specified for ee.Date(): undefined",
        env := { layers := [], center := some (poi, 14), widgets := [legend], tasks := [] } } := by
  unfold run runFrom
  simp only [h, forEach]
  exact exportStage_nil S _

/-- C5, as stated, fails: on the empty `timestamps` the stage does read the missing
element. The read `timestamps[timestamps.length - 1]` gives `undefined`, that value
is handed to `ee.Date`, and the error that stops the stage is the one `ee.Date`
throws for `undefined`, not a precondition error raised ahead of the read. -/
theorem exportStage_empty_reads_missing_element :
    index ([] : List Timestamp) ((([] : List Timestamp).length : Int) - 1) = none ∧
    strictService.dateYear
        (index ([] : List Timestamp) ((([] : List Timestamp).length : Int) - 1)) =
      Except.error "Invalid argument specified for ee.Date(): undefined" ∧
    exportStage strictService [] Env.empty = Except.error
      { message := "Invalid argument specified for ee.Date(): undefined",
        env := Env.empty } :=
  ⟨rfl, rfl, exportStage_nil strictService Env.empty⟩

/-- C5, amended: on the empty `timestamps` the export stage raises a fatal error before
it changes anything in the session, so no export job is submitted and the stage
never completes. The error is no check of the stage's own: the stage reads
`timestamps[timestamps.length - 1]`, which is `undefined`, hands it to `ee.Date`, and
stops on what `ee.Date` throws for it. -/
theorem exportStage_empty_fails_in_date_constructor (S : Service) (env : Env) :
    index ([] : List Timestamp) ((([] : List Timestamp).length : Int) - 1) = none ∧
    S.dateYear (index ([] : List Timestamp) ((([] : List Timestamp).length : Int) - 1)) =
      Except.error "Invalid argument specified for ee.Date(): undefined" ∧
    exportStage S [] env = Except.error
      { message := "Invalid argument specified for ee.Date(): undefined", env := env } ∧
    (∀ f, exportStage S [] env = Except.error f →
      f.env.tasks = env.tasks ∧ f.env.layers = env.layers ∧ f.env.widgets = env.widgets) ∧
    ¬ ∃ env2, exportStage S [] env = Except.ok env2 := by
  refine ⟨rfl, S.dateYear_undefined, exportStage_nil S env, ?_, ?_⟩
  · intro f hf
    rw [exportStage_nil] at hf
    cases hf
    exact ⟨rfl, rfl, rfl⟩
  · rintro ⟨env2, h2⟩
    rw [exportStage_nil] at h2
    cases h2

/-- C6, as stated, fails: over a catalog with no record on the region the empty
result is treated as an error. The export stage still runs and the run ends in the
error `ee.Date` throws for `undefined`; it does not complete. -/
theorem run_empty_ends_in_error :
    timestamps strictService remoteCatalog = [] ∧
    run strictService remoteCatalog = Except.error
      { message := "Invalid argument specified for ee.Date(): undefined",
        env := { layers := [], center := some (poi, 14), widgets := [legend], tasks := [] } } ∧
    ¬ ∃ env, run strictService remoteCatalog = Except.ok env := by
  have hts : timestamps strictService remoteCatalog = [] :=
    timestamps_eq_nil_of_no_match _ _ (by decide)
  refine ⟨hts, run_eq_of_timestamps_nil _ _ hts, ?_⟩
  rintro ⟨env, h⟩
  rw [run_eq_of_timestamps_nil _ _ hts] at h
  cases h

/-- C6, amended: when no record of the catalog intersects the region, `timestamps` is
the empty sequence, the rendering loop calls no callback and leaves the session as
it is, and the run adds no map layer and submits no export job. The empty result
does end the run in an error: the export stage is not skipped, and the run stops,
with the map centred and the legend added, on what `ee.Date` throws for the
`undefined` element `timestamps[timestamps.length - 1]`. -/
theorem run_without_matching_records (S : Service) (catalog : List Record)
    (h : ∀ r ∈ catalog, S.intersects r.footprint poi = false) :
    timestamps S catalog = [] ∧
    (∀ (callback : Timestamp → Env → Except Failure Env) (env : Env),
      forEach (timestamps S catalog) callback env = Except.ok env) ∧
    run S catalog = Except.error
      { message := "Invalid argument specified for ee.Date(): undefined",
        env := { layers := [], center := some (poi, 14), widgets := [legend], tasks := [] } } ∧
    (∀ f, run S catalog = Except.error f → f.env.layers = [] ∧ f.env.tasks = []) ∧
    ¬ ∃ env, run S catalog = Except.ok env := by
  have hts := timestamps_eq_nil_of_no_match S catalog h
  have hrun := run_eq_of_timestamps_nil S catalog hts
  refine ⟨hts, ?_, hrun, ?_, ?_⟩
  · intro callback env
    rw [hts]
    rfl
  · intro f hf
    rw [hrun] at hf
    cases hf
    exact ⟨rfl, rfl⟩
  · rintro ⟨env, henv⟩
    rw [hrun] at henv
    cases henv

/-- Witness for the amended C6: the remote catalog under the reference service. -/
theorem run_without_matching_records_witness :
    (∀ r ∈ remoteCatalog, strictService.intersects r.footprint poi = false) ∧
    timestamps strictService remoteCatalog = [] ∧
    (∀ f, run strictService remoteCatalog = Except.error f →
      f.env.layers = [] ∧ f.env.tasks = []) ∧
    ¬ ∃ env, run strictService remoteCatalog = Except.ok env :=
  ⟨by decide,
   (run_without_matching_records strictService remoteCatalog (by decide)).1,
   (run_without_matching_records strictService remoteCatalog (by decide)).2.2.2.1,
   (run_without_matching_records strictService remoteCatalog (by decide)).2.2.2.2⟩

/-! ## Palette and legend: claims -/

theorem legend_widgets :
    legend.widgets =
      [Widget.label legendTitle,
       Widget.panel
         [{ value := none,
            style := [("backgroundColor", some "#ffcccc"), ("padding", some "8px"),
                      ("margin", some "0 0 4px 0")] },
          { value := some "1-2", style := [("margin", some "0 0 4px 6px")] }] "horizontal",
       Widget.panel
         [{ value := none,
            style := [("backgroundColor", some "#ff9999"), ("padding", some "8px"),
                      ("margin", some "0 0 4px 0")] },
          { value := some "2-4", style := [("margin", some "0 0 4px 6px")] }] "horizontal",
       Widget.panel
         [{ value := none,
            style := [("backgroundColor", some "#ff6666"), ("padding", some "8px"),
                      ("margin", some "0 0 4px 0")] },
          { value := some "5-7", style := [("margin", some "0 0 4px 6px")] }] "horizontal",
       Widget.panel
         [{ value := none,
            style := [("backgroundColor", some "#ff3333"), ("padding", some "8px"),
                      ("margin", some "0 0 4px 0")] },
          { value := some "7-9", style := [("margin", some "0 0 4px 6px")] }] "horizontal",
       Widget.panel
         [{ value := none,
            style := [("backgroundColor", some "#cc0000"), ("padding", some "8px"),
                      ("margin", some "0 0 4px 0")] },
          { value := some "10+", style := [("margin", some "0 0 4px 6px")] }] "horizontal"] := by
  simp [legend, legendLoop, legendRow, index, heightPalette, legendLabels, Panel.add, legendPanel]

/-- C7: with the 6-colour `heightPalette` and the 5-entry `legendLabels` the legend
holds the title followed by exactly 5 rows; for every `i` in `0..4` row `i` pairs the
colour `heightPalette[i+1]` with the text `legendLabels[i]`, both reads being in
bounds; `len(legendLabels) = len(heightPalette) - 1`; and the colour at palette
index 0 is on no row. -/
theorem legend_rows_pair_palette_with_labels :
    heightPalette.length = 6 ∧ legendLabels.length = 5 ∧
    legendLabels.length = heightPalette.length - 1 ∧
    legend.widgets.length = 1 + 5 ∧
    legend.widgets[0]? = some (Widget.label legendTitle) ∧
    (∀ i, i < 5 → ∃ c t, heightPalette[i + 1]? = some c ∧ legendLabels[i]? = some t ∧
      legend.widgets[1 + i]? = some (Widget.panel
        [{ value := none,
           style := [("backgroundColor", some c), ("padding", some "8px"),
                     ("margin", some "0 0 4px 0")] },
         { value := some t, style := [("margin", some "0 0 4px 6px")] }] "horizontal")) ∧
    (∀ w ∈ legend.widgets, ∀ ws layout, w = Widget.panel ws layout →
      ∀ l ∈ ws, ("backgroundColor", heightPalette[0]?) ∉ l.style) := by
  rw [legend_widgets]
  refine ⟨rfl, rfl, rfl, rfl, rfl, ?_, ?_⟩
  · intro i hi
    interval_cases i <;> exact ⟨_, _, rfl, rfl, rfl⟩
  · intro w hw ws layout hwe l hl
    subst hwe
    simp [legendTitle] at hw
    rcases hw with h | h | h | h | h <;> obtain ⟨rfl, _⟩ := h <;>
      simp at hl <;> rcases hl with rfl | rfl <;> simp [heightPalette]

/-- C9, as stated, fails: `heightPalette` and `heightRanges` do not both have length 6. -/
theorem palette_and_ranges_lengths_differ :
    ¬ (heightPalette.length = 6 ∧ heightRanges.length = 6 ∧
       heightPalette.length = heightRanges.length) := by
  decide

/-- C9, amended: `heightPalette` has 6 colours and `heightRanges` has 7 breakpoints,
one more than the number of colours. -/
theorem palette_six_colours_seven_breakpoints :
    heightPalette.length = 6 ∧ heightRanges.length = 7 ∧
    heightRanges.length = heightPalette.length + 1 := by
  decide

end GeeScript
